import Mathlib

/-!
Verification of the UptimeRobot Prometheus exporter core
(`src/ws/prometheus_uptimerobot/web.py`).

The Python code is shallowly embedded: JSON values decoded from the
upstream API are modelled by `Json`, Python exceptions by `PyError`
threaded through `Except` (or, where the code mutates state in place
before an exception escapes, by a `state × Option PyError` pair), and
the network layer `requests.get` + `Response.raise_for_status` +
`Response.json` by a function `String → NetResult` supplied as a
parameter.  Wall-clock readings (scrape duration) and the local
timezone used by `datetime.timestamp()` on naive datetimes are
likewise parameters.  All definitions are executable.
-/

/-- JSON values as decoded by `response.json()` (Python objects). -/
inductive Json where
  | null
  | bool (b : Bool)
  | num (q : ℚ)
  | str (s : String)
  | arr (elems : List Json)
  | obj (fields : List (String × Json))

/-- Python truthiness (`if x:`) for JSON-decoded values. -/
def truthy : Json → Bool
  | .null => false
  | .bool b => b
  | .num q => if q = 0 then false else true
  | .str s => if s = "" then false else true
  | .arr l => !l.isEmpty
  | .obj l => !l.isEmpty

/-- Python `==` between a JSON-decoded value and a string literal
(only strings compare equal to strings). -/
def pyEqStr : Json → String → Bool
  | .str a, b => a == b
  | _, _ => false

/-- First-match lookup in a JSON object's field list (Python dict lookup;
decoded JSON objects have unique keys). -/
def lookupStr : List (String × Json) → String → Option Json
  | [], _ => none
  | (k, v) :: rest, key => if k = key then some v else lookupStr rest key

/-- Python exceptions that can surface in the embedded code. -/
inductive PyError where
  | apiError (msg : String)     -- UptimeRobotAPIError
  | attributeError
  | typeError
  | keyError (k : String)
  | valueError (msg : String)
  | nonTermination              -- fuel exhaustion artefact of the embedding
deriving DecidableEq

/-- Does `r.get(key, dflt)` : dict method `get`; raises AttributeError on
non-dict receivers. -/
def getAttrD (r : Json) (key : String) (dflt : Json) : Except PyError Json :=
  match r with
  | .obj fields => .ok ((lookupStr fields key).getD dflt)
  | _ => .error .attributeError

/-- Does `r[key]` for a string key: dict indexing; KeyError when absent,
TypeError on non-dict receivers. -/
def getItem (r : Json) (key : String) : Except PyError Json :=
  match r with
  | .obj fields =>
      match lookupStr fields key with
      | some v => .ok v
      | none => .error (.keyError key)
  | _ => .error .typeError

/-- Python iteration over a value, as consumed by `list.extend`:
lists yield elements, strings yield one-character strings, dicts yield
their keys, everything else raises TypeError. -/
def pyIter : Json → Except PyError (List Json)
  | .arr l => .ok l
  | .str s => .ok (s.data.map (fun c => Json.str (String.mk [c])))
  | .obj fields => .ok (fields.map (fun kv => Json.str kv.1))
  | _ => .error .typeError

/-- Does `hdPre ++ ... = l`? Prefix test on character lists. -/
def listStartsWith : List Char → List Char → Bool
  | [], _ => true
  | _ :: _, [] => false
  | a :: as, b :: bs => if a = b then listStartsWith as bs else false

/-- Substring test on character lists (Python `needle in hay` for strings). -/
def substrAux (needle : List Char) : List Char → Bool
  | [] => listStartsWith needle []
  | c :: rest =>
      if listStartsWith needle (c :: rest) then true else substrAux needle rest

/-- Python `needle in r` for a string needle: key membership for dicts,
element equality for lists, substring test for strings, TypeError otherwise. -/
def pyIn (needle : String) : Json → Except PyError Bool
  | .obj fields => .ok (fields.any (fun kv => kv.1 == needle))
  | .arr elems => .ok (elems.any (fun e => pyEqStr e needle))
  | .str hay => .ok (substrAux needle.data hay.data)
  | _ => .error .typeError

/-- One sample of a gauge metric family (`core.Sample`). -/
structure Sample where
  name : String
  labels : List (String × Json)
  value : ℚ

/-- The `PrometheusGauge` class: a gauge metric family with namespace
support; `samples` grows by appending. -/
structure PrometheusGauge where
  shortName : String
  namespaceName : String
  documentation : String
  samples : List Sample

/-- Full metric name, `f"{namespace}_{name}"` from `PrometheusGauge.__init__`. -/
def PrometheusGauge.fullName (g : PrometheusGauge) : String :=
  g.namespaceName ++ "_" ++ g.shortName

/-- The `PrometheusGauge.__call__` method: appends one sample carrying the
family's name, the given labels and the value. -/
def gaugeCall (g : PrometheusGauge) (value : ℚ) (labels : List (String × Json)) :
    PrometheusGauge :=
  { g with samples := g.samples ++ [⟨g.fullName, labels, value⟩] }

/-- The `PrometheusGauge.clone` method: same name, documentation and
namespace, empty sample list. -/
def PrometheusGauge.clone (g : PrometheusGauge) : PrometheusGauge :=
  { g with samples := [] }

/-- Construction of a gauge as in `UptimeRobotCollector.__init__`
(namespace defaults to "uptimerobot", no samples yet). -/
def mkGauge (name doc : String) : PrometheusGauge :=
  ⟨name, "uptimerobot", doc, []⟩

/-- The collector's metrics dictionary: insertion-ordered string-keyed
dict of gauges. -/
def MetricsDict := List (String × PrometheusGauge)

/-- Does `metrics[k]` on the metrics dict (KeyError when absent). -/
def metricsLookup (m : MetricsDict) (k : String) : Except PyError PrometheusGauge :=
  match m.find? (fun kv => kv.1 == k) with
  | some kv => .ok kv.2
  | none => .error (.keyError k)

/-- In-place mutation of the gauge stored under `k` (Python mutates the
aliased gauge object; the dict keeps its keys and order). -/
def metricsUpdate (m : MetricsDict) (k : String) (g : PrometheusGauge) : MetricsDict :=
  m.map (fun kv => if kv.1 == k then (k, g) else kv)

/-- Does `list(metrics.values())`. -/
def metricsValues (m : MetricsDict) : List PrometheusGauge :=
  m.map (fun kv => kv.2)

/-- The metrics dict built in `UptimeRobotCollector.__init__`. -/
def initMetrics : MetricsDict :=
  [("up", mkGauge "up" "Is the monitor up?"),
   ("status", mkGauge "status" "Numeric status of the monitor"),
   ("ssl_expire", mkGauge "ssl_expire" "Date of cert expiration"),
   ("scrape_duration_seconds",
     mkGauge "scrape_duration_seconds" "Duration of uptimerobot.com scrape")]

/-- Outcome of one `requests.get` call: a transport failure
(ConnectionError, timeout, invalid URL – all `requests.RequestException`),
or a response with an HTTP status code and a body that either decodes to
JSON (`some`) or is undecodable (`none`, raising the RequestException
subclass JSONDecodeError from `response.json()`). -/
inductive NetResult where
  | transportError (msg : String)
  | response (status : Nat) (body : Option Json)

/-- Base listing URL `f"{API_BASE_URL}/monitors/"`. -/
def baseMonitorsUrl : String := "https://api.uptimerobot.com/v3/monitors/"

/-- The `UptimeRobotCollector._get_paginated` method.  `next_link` is the
optional argument; `url = next_link if next_link else base`.  A truthy
non-string link makes `requests.get` raise a RequestException (invalid
URL), and `raise_for_status` raises exactly for 400 <= status < 600; all
`requests.RequestException`s are wrapped into UptimeRobotAPIError. -/
def resolveUrl (next_link : Option Json) : Except PyError String :=
  match next_link with
  | some nl =>
      if truthy nl then
        match nl with
        | .str s => .ok s
        | _ => .error (.apiError "API request failed: invalid URL")
      else .ok baseMonitorsUrl
  | none => .ok baseMonitorsUrl

def getPaginated (net : String → NetResult) (next_link : Option Json) :
    Except PyError Json :=
  match resolveUrl next_link with
  | .error e => .error e
  | .ok url =>
      match net url with
      | .transportError msg => .error (.apiError ("API request failed: " ++ msg))
      | .response status body =>
          if 400 ≤ status ∧ status < 600 then
            .error (.apiError "API request failed: HTTP error")
          else
            match body with
            | none => .error (.apiError "API request failed: undecodable body")
            | some j => .ok j

/-- The `while` condition of `_get_monitors`:
`"nextLink" in response and response.get("nextLink")`, yielding the value
`response["nextLink"]` passed to the next fetch when the loop continues. -/
def whileCond (r : Json) : Except PyError (Option Json) :=
  match pyIn "nextLink" r with
  | .error e => .error e
  | .ok false => .ok none
  | .ok true =>
      match getAttrD r "nextLink" Json.null with
      | .error e => .error e
      | .ok v =>
          if truthy v then
            match getItem r "nextLink" with
            | .error e => .error e
            | .ok linkVal => .ok (some linkVal)
          else .ok none

/-- The `while` loop of `_get_monitors`, with fuel for the unbounded
page-following recursion; `calls` counts HTTP requests issued so far.
A falsy follow-up page breaks out of the loop. -/
def monitorsLoop (net : String → NetResult) :
    Nat → Json → List Json → Nat → Except PyError (List Json × Nat)
  | 0, _, _, _ => .error .nonTermination
  | fuel + 1, response, acc, calls =>
      match whileCond response with
      | .error e => .error e
      | .ok none => .ok (acc, calls)
      | .ok (some nl) =>
          match getPaginated net (some nl) with
          | .error e => .error e
          | .ok r =>
              if truthy r then
                match getAttrD r "data" (Json.arr []) with
                | .error e => .error e
                | .ok d =>
                    match pyIter d with
                    | .error e => .error e
                    | .ok items => monitorsLoop net fuel r (acc ++ items) (calls + 1)
              else .ok (acc, calls + 1)

/-- The `UptimeRobotCollector._get_monitors` method.  Returns the
aggregated monitor records together with the number of HTTP requests
issued (the request count instruments the model; the Python code has no
such counter). -/
def getMonitors (net : String → NetResult) (fuel : Nat) :
    Except PyError (List Json × Nat) :=
  match getPaginated net none with
  | .error e => .error e
  | .ok response =>
      if truthy response then
        match getAttrD response "data" (Json.arr []) with
        | .error e => .error e
        | .ok d =>
            match pyIter d with
            | .error e => .error e
            | .ok items => monitorsLoop net fuel response items 1
      else .ok ([], 1)

/-- Aware-or-naive datetime as produced by `datetime.fromisoformat`:
calendar fields, milliseconds, and an optional UTC offset in minutes
(`none` = naive). -/
structure DT where
  year : ℕ
  month : ℕ
  day : ℕ
  hour : ℕ
  minute : ℕ
  second : ℕ
  millis : ℕ
  offMinutes : Option ℤ
deriving DecidableEq

/-- The decimal digit character for `n % 10`. -/
def digitChar (n : ℕ) : Char := Char.ofNat (48 + n % 10)

/-- Two-digit zero-padded decimal rendering (`n` below 100). -/
def pad2 (n : ℕ) : List Char := [digitChar (n / 10), digitChar n]

/-- Three-digit zero-padded decimal rendering (`n` below 1000). -/
def pad3 (n : ℕ) : List Char := [digitChar (n / 100), digitChar (n / 10), digitChar n]

/-- Four-digit zero-padded decimal rendering (`n` below 10000). -/
def pad4 (n : ℕ) : List Char :=
  [digitChar (n / 1000), digitChar (n / 100), digitChar (n / 10), digitChar n]

/-- Decimal digit value of a character, `none` for non-digits. -/
def parseD (c : Char) : Option ℕ :=
  if 48 ≤ c.toNat ∧ c.toNat ≤ 57 then some (c.toNat - 48) else none

/-- Two decimal digits. -/
def parse2 (a b : Char) : Option ℕ :=
  match parseD a, parseD b with
  | some x, some y => some (x * 10 + y)
  | _, _ => none

/-- Three decimal digits. -/
def parse3 (a b c : Char) : Option ℕ :=
  match parseD a, parseD b, parseD c with
  | some x, some y, some z => some ((x * 10 + y) * 10 + z)
  | _, _, _ => none

/-- Four decimal digits. -/
def parse4 (a b c d : Char) : Option ℕ :=
  match parseD a, parseD b, parseD c, parseD d with
  | some x, some y, some z, some w => some (((x * 10 + y) * 10 + z) * 10 + w)
  | _, _, _, _ => none

/-- Gregorian leap-year rule. -/
def isLeapB (y : ℕ) : Bool := y % 4 == 0 && (y % 100 != 0 || y % 400 == 0)

/-- Length of a month in the proleptic Gregorian calendar. -/
def daysInMonth (y m : ℕ) : ℕ :=
  if m == 2 then (if isLeapB y then 29 else 28)
  else if m == 4 || m == 6 || m == 9 || m == 11 then 30
  else 31

/-- Range validation performed by the `datetime` constructor
(MINYEAR = 1, MAXYEAR = 9999). -/
def validDate (y m d : ℕ) : Prop :=
  1 ≤ y ∧ y ≤ 9999 ∧ 1 ≤ m ∧ m ≤ 12 ∧ 1 ≤ d ∧ d ≤ daysInMonth y m

instance (y m d : ℕ) : Decidable (validDate y m d) := by
  unfold validDate; infer_instance

/-- Optional trailing UTC offset `±HH:MM` (empty input = naive). -/
def parseOffset : List Char → Option (Option ℤ)
  | [] => some none
  | [sg, h1, h2, cl, m1, m2] =>
      if cl = ':' then
        match parse2 h1 h2, parse2 m1 m2 with
        | some oh, some om =>
            if oh ≤ 23 ∧ om ≤ 59 then
              if sg = '+' then some (some ((oh * 60 + om : ℕ) : ℤ))
              else if sg = '-' then some (some (-((oh * 60 + om : ℕ) : ℤ)))
              else none
            else none
        | _, _ => none
      else none
  | _ => none

/-- Optional fractional-seconds part (exactly three digits, the
millisecond precision used by the upstream API) followed by the optional
offset. -/
def parseFrac : List Char → Option (ℕ × Option ℤ)
  | [] => some (0, none)
  | '.' :: a :: b :: c :: tail =>
      (match parse3 a b c with
       | some ms => (parseOffset tail).map (fun o => (ms, o))
       | none => none)
  | cs => (parseOffset cs).map (fun o => (0, o))

/-- Time-of-day part `HH:MM:SS[.fff][±HH:MM]`. -/
def parseTimeList (y mo da : ℕ) : List Char → Option DT
  | h1 :: h2 :: c1 :: mi1 :: mi2 :: c2 :: s1 :: s2 :: rest =>
      if c1 = ':' ∧ c2 = ':' then
        match parse2 h1 h2, parse2 mi1 mi2, parse2 s1 s2 with
        | some h, some mi, some s =>
            if h ≤ 23 ∧ mi ≤ 59 ∧ s ≤ 59 then
              match parseFrac rest with
              | some (ms, off) => some ⟨y, mo, da, h, mi, s, ms, off⟩
              | none => none
            else none
        | _, _, _ => none
      else none
  | _ => none

/-- Model of `datetime.fromisoformat`, restricted to the ISO-8601 profile
relevant here: `YYYY-MM-DD`, optionally followed by a literal `T`
separator and `HH:MM:SS[.fff][±HH:MM]`.  Out-of-range components are
rejected (the `datetime` constructor raises ValueError). -/
def fromIsoList : List Char → Option DT
  | y1 :: y2 :: y3 :: y4 :: s1 :: m1 :: m2 :: s2 :: d1 :: d2 :: rest =>
      if s1 = '-' ∧ s2 = '-' then
        match parse4 y1 y2 y3 y4, parse2 m1 m2, parse2 d1 d2 with
        | some y, some mo, some da =>
            if validDate y mo da then
              match rest with
              | [] => some ⟨y, mo, da, 0, 0, 0, 0, none⟩
              | sep :: ts => if sep = 'T' then parseTimeList y mo da ts else none
            else none
        | _, _, _ => none
      else none
  | _ => none

/-- Does `datetime.fromisoformat` on a string. -/
def fromisoformat (s : String) : Option DT := fromIsoList s.data

/-- Does `iso_string.replace("Z", "+00:00")`: every `Z` character is
replaced (the needle is a single character, so character-wise replacement
is exact). -/
def replaceZlist : List Char → List Char
  | [] => []
  | c :: rest => (if c = 'Z' then ['+', '0', '0', ':', '0', '0'] else [c]) ++ replaceZlist rest

/-- String-level wrapper of `replaceZlist`. -/
def replaceZ (s : String) : String := String.mk (replaceZlist s.data)

/-- Days since 1970-01-01 of a proleptic-Gregorian civil date (the
standard days-from-civil algorithm, as used by POSIX timestamps). -/
def daysFromCivil (y m d : ℕ) : ℤ :=
  let yAdj := if m ≤ 2 then y - 1 else y
  let era := yAdj / 400
  let yoe := yAdj % 400
  let mp := (m + 9) % 12
  let doy := (153 * mp + 2) / 5 + (d - 1)
  let doe := yoe * 365 + yoe / 4 - yoe / 100 + doy
  ((era * 146097 + doe : ℕ) : ℤ) - 719468

/-- Whole seconds since the epoch of the calendar fields of a datetime,
read as UTC. -/
def utcEpochSecs (dt : DT) : ℤ :=
  86400 * daysFromCivil dt.year dt.month dt.day
    + 3600 * (dt.hour : ℤ) + 60 * (dt.minute : ℤ) + (dt.second : ℤ)

/-- Does `dt.timestamp()`.  Aware datetimes subtract their fixed UTC
offset; naive datetimes are interpreted in the local timezone, supplied
to the model as the function `tzl` giving the local UTC offset in
seconds at the given datetime. -/
def timestampOf (tzl : DT → ℚ) (dt : DT) : ℚ :=
  match dt.offMinutes with
  | some o => (utcEpochSecs dt : ℚ) + (dt.millis : ℚ) / 1000 - (o : ℚ) * 60
  | none => (utcEpochSecs dt : ℚ) + (dt.millis : ℚ) / 1000 - tzl dt

/-- The `UptimeRobotCollector._parse_iso_datetime` static method.
Falsy input returns None; a non-string receiver makes `.replace` raise
AttributeError, and an unparseable string makes `fromisoformat` raise
ValueError — both exception classes are caught by the method's
`except (ValueError, AttributeError)` clause, which returns None. -/
def parseIsoDatetime (tzl : DT → ℚ) (iso : Json) : Option ℚ :=
  if truthy iso then
    match iso with
    | .str s =>
        match fromisoformat (replaceZ s) with
        | some dt => some (timestampOf tzl dt)
        | none => none
    | _ => none
  else none

/-- The `status` value read by `_process_monitor`
(`monitor.get("status")`, default None). -/
def monStatus (fields : List (String × Json)) : Json :=
  (lookupStr fields "status").getD Json.null

/-- The label dict built by `_process_monitor`: per-field defaulting plus
the derived `monitor_paused` flag. -/
def monLabels (fields : List (String × Json)) : List (String × Json) :=
  [("monitor_name", (lookupStr fields "friendlyName").getD (Json.str "")),
   ("monitor_type", (lookupStr fields "type").getD (Json.str "")),
   ("monitor_url", (lookupStr fields "url").getD (Json.str "")),
   ("monitor_paused",
     Json.str (if pyEqStr (monStatus fields) "PAUSED" then "true" else "false"))]

/-- The `try` body of `UptimeRobotCollector._process_monitor`.  Python
mutates the gauges held by the metrics dict in place, so the body
returns the dict as updated so far together with the exception that
escaped the body, if any.  A non-dict monitor raises AttributeError at
`monitor.get("status")` before anything is appended. -/
def processBody (tzl : DT → ℚ) (monitor : Json) (m : MetricsDict) :
    MetricsDict × Option PyError :=
  match monitor with
  | .obj fields =>
      let labels := monLabels fields
      let isUp := pyEqStr (monStatus fields) "UP"
      match metricsLookup m "up" with
      | .error e => (m, some e)
      | .ok gUp =>
          let m1 := metricsUpdate m "up" (gaugeCall gUp (if isUp then 1 else 0) labels)
          match metricsLookup m1 "status" with
          | .error e => (m1, some e)
          | .ok gSt =>
              let statusValue : ℚ := if isUp then 1 else 0
              let m2 := metricsUpdate m1 "status" (gaugeCall gSt statusValue labels)
              let sslInfo := (lookupStr fields "sslExpiryDateTime").getD Json.null
              if truthy sslInfo then
                match parseIsoDatetime tzl sslInfo with
                | some ts =>
                    match metricsLookup m2 "ssl_expire" with
                    | .error e => (m2, some e)
                    | .ok gSsl =>
                        (metricsUpdate m2 "ssl_expire" (gaugeCall gSsl ts labels), none)
                | none => (m2, none)
              else (m2, none)
  | _ => (m, some .attributeError)

/-- The `UptimeRobotCollector._process_monitor` method.  The `except`
handler logs using `monitor.get("friendlyName", "unknown")`: for a dict
monitor this succeeds and the exception is swallowed, but for a non-dict
monitor the handler itself raises AttributeError, which escapes. -/
def processMonitor (tzl : DT → ℚ) (monitor : Json) (m : MetricsDict) :
    MetricsDict × Option PyError :=
  match processBody tzl monitor m with
  | (mOut, none) => (mOut, none)
  | (mOut, some _) =>
      match monitor with
      | .obj _ => (mOut, none)
      | _ => (mOut, some .attributeError)

/-- The record loop of `UptimeRobotCollector.collect`: processes monitors
in order; an exception escaping `_process_monitor` aborts the loop (it
propagates to collect's generic handler). -/
def runMonitors (tzl : DT → ℚ) : List Json → MetricsDict → MetricsDict × Option PyError
  | [], m => (m, none)
  | mon :: rest, m =>
      match processMonitor tzl mon m with
      | (mNext, none) => runMonitors tzl rest mNext
      | (mNext, some e) => (mNext, some e)

/-- The `UptimeRobotCollector.collect` method acting on the collector's
cached metrics dict `st` (the `metrics` property returns `self._metrics`
itself, not a copy).  `duration` is the elapsed wall-clock scrape time
measured by the two `datetime.now()` calls.  UptimeRobotAPIError is
re-raised; any other exception is logged and swallowed, after which the
method still returns `list(self.metrics.values())`. -/
def collect (tzl : DT → ℚ) (net : String → NetResult) (fuel : Nat) (duration : ℚ)
    (st : MetricsDict) : MetricsDict × Except PyError (List PrometheusGauge) :=
  match getMonitors net fuel with
  | .error (.apiError msg) => (st, .error (.apiError msg))
  | .error _ => (st, .ok (metricsValues st))
  | .ok (monitors, _) =>
      match runMonitors tzl monitors st with
      | (stNext, some _) => (stNext, .ok (metricsValues stNext))
      | (stNext, none) =>
          match metricsLookup stNext "scrape_duration_seconds" with
          | .error _ => (stNext, .ok (metricsValues stNext))
          | .ok g =>
              let stOut := metricsUpdate stNext "scrape_duration_seconds"
                (gaugeCall g duration [])
              (stOut, .ok (metricsValues stOut))

/-- The collector object built by `UptimeRobotCollector.__init__`. -/
structure Collector where
  api_key : String
  timeout : ℤ
  metrics : MetricsDict

/-- The `UptimeRobotCollector.__init__` constructor: falsy API key raises
ValueError, a truthy non-string key raises TypeError, a non-positive
timeout raises ValueError; otherwise the collector is built with the
fresh template metrics dict. -/
def initCollector (api_key : Json) (timeout : ℤ) : Except PyError Collector :=
  if truthy api_key = false then .error (.valueError "API key is required")
  else
    match api_key with
    | .str s =>
        if timeout ≤ 0 then .error (.valueError "Timeout must be positive")
        else .ok ⟨s, timeout, initMetrics⟩
    | _ => .error .typeError

/-- UTC epoch seconds (with millisecond fraction) of a calendar instant:
the specification-side reference value a correctly parsed `Z`-suffixed
ISO string must map to. -/
def utcEpoch (y m d h mi s ms : ℕ) : ℚ :=
  ((86400 * daysFromCivil y m d + 3600 * (h : ℤ) + 60 * (mi : ℤ) + (s : ℤ) : ℤ) : ℚ)
    + (ms : ℚ) / 1000

/-- Character-list rendering of an instant in the upstream API's
ISO-8601 profile, without the trailing zone marker:
`YYYY-MM-DDTHH:MM:SS` plus an optional 3-digit fraction. -/
def isoBodyChars (y m d h mi s : ℕ) (ms : Option ℕ) : List Char :=
  pad4 y ++ ('-' :: (pad2 m ++ ('-' :: (pad2 d ++ ('T' :: (pad2 h ++ (':' ::
    (pad2 mi ++ (':' :: (pad2 s ++
      (match ms with | some k => '.' :: pad3 k | none => [])))))))))))

/-- Full `Z`-suffixed ISO-8601 rendering of an instant. -/
def isoZ (y m d h mi s : ℕ) (ms : Option ℕ) : String :=
  String.mk (isoBodyChars y m d h mi s ms ++ ['Z'])

/-- A URL whose fetch succeeds: some status outside the
`raise_for_status` range with a JSON-decodable body `r`. -/
def okResponse (net : String → NetResult) (u : String) (r : Json) : Prop :=
  ∃ s, net u = .response s (some r) ∧ ¬(400 ≤ s ∧ s < 600)

/-- A URL whose fetch fails in one of the three `CollectionError` ways:
transport failure, HTTP error status, or undecodable body. -/
def netFails (net : String → NetResult) (u : String) : Prop :=
  (∃ msg, net u = .transportError msg) ∨
    (∃ s b, net u = .response s b ∧ 400 ≤ s ∧ s < 600) ∨
    (∃ s, net u = .response s none)

/-- The records a page contributes: `response.get("data", [])` followed by
`list.extend` iteration. -/
def pageData (r : Json) (items : List Json) : Prop :=
  ∃ d, getAttrD r "data" (Json.arr []) = .ok d ∧ pyIter d = .ok items

/-- A chain of successfully linked pages from the loop state `r` to the
final loop state `rl`: each element carries the followed URL, the fetched
page and the records that page contributes. -/
def chainTo (net : String → NetResult) :
    Json → List (String × Json × List Json) → Json → Prop
  | r, [], rl => r = rl
  | r, (u, rNext, items) :: rest, rl =>
      whileCond r = .ok (some (Json.str u)) ∧ u ≠ "" ∧ okResponse net u rNext ∧
        truthy rNext = true ∧ pageData rNext items ∧ chainTo net rNext rest rl

def monValue (fields : List (String × Json)) : ℚ :=
  if pyEqStr (monStatus fields) "UP" then 1 else 0

def sslResult (tzl : DT → ℚ) (fields : List (String × Json))
    (g : PrometheusGauge) : PrometheusGauge :=
  if truthy ((lookupStr fields "sslExpiryDateTime").getD Json.null) then
    match parseIsoDatetime tzl ((lookupStr fields "sslExpiryDateTime").getD Json.null) with
    | some ts => gaugeCall g ts (monLabels fields)
    | none => g
  else g

/-- Trivial local-timezone model (UTC) used for concrete evaluations. -/
def tzZero : DT → ℚ := fun _ => 0

/-- A single healthy monitor record, as in the integration fixtures. -/
def monUpRecord : Json :=
  Json.obj [("friendlyName", Json.str "M"), ("type", Json.str "http"),
    ("url", Json.str "https://example.com"), ("status", Json.str "UP")]

/-- Upstream returning one page with one UP monitor and no next link. -/
def netSingleUp : String → NetResult :=
  fun _ => .response 200 (some (Json.obj [("data", Json.arr [monUpRecord])]))

/-- Upstream returning one page with an empty data array. -/
def netEmptyData : String → NetResult :=
  fun _ => .response 200 (some (Json.obj [("data", Json.arr [])]))

/-- Upstream answering 300 (a non-2xx status outside the
`raise_for_status` range) with an empty JSON object body. -/
def netStatus300 : String → NetResult :=
  fun _ => .response 300 (some (Json.obj []))

/-- URL of the second page in the two-page fixtures. -/
def pageTwoUrl : String := "https://api.uptimerobot.com/v3/monitors/?page=2"

/-- First record of the two-page fixture. -/
def recOne : Json := Json.obj [("friendlyName", Json.str "A"), ("status", Json.str "UP")]

/-- Second record of the two-page fixture. -/
def recTwo : Json := Json.obj [("friendlyName", Json.str "B"), ("status", Json.str "DOWN")]

/-- Third record of the two-page fixture. -/
def recThree : Json := Json.obj [("friendlyName", Json.str "C"), ("status", Json.str "PAUSED")]

/-- First page of the two-page fixtures: two records plus a next link. -/
def pageOneJson : Json :=
  Json.obj [("data", Json.arr [recOne, recTwo]), ("nextLink", Json.str pageTwoUrl)]

/-- Second page of the two-page success fixture: one record, no next link. -/
def pageTwoJson : Json := Json.obj [("data", Json.arr [recThree])]

/-- Upstream with two successfully linked pages. -/
def netTwoPages : String → NetResult :=
  fun u => if u = pageTwoUrl then .response 200 (some pageTwoJson)
           else .response 200 (some pageOneJson)

/-- Upstream whose second page answers 500 with an undecodable body. -/
def netFailPageTwo : String → NetResult :=
  fun u => if u = pageTwoUrl then .response 500 none
           else .response 200 (some pageOneJson)

/-- Upstream whose second page decodes to JSON null (falsy). -/
def netFalsyPageTwo : String → NetResult :=
  fun u => if u = pageTwoUrl then .response 200 (some Json.null)
           else .response 200 (some pageOneJson)

/-- A PAUSED monitor record (fixture for the paused-label behavior). -/
def monPausedFields : List (String × Json) :=
  [("friendlyName", Json.str "P"), ("type", Json.str "port"),
   ("url", Json.str "https://paused.example"), ("status", Json.str "PAUSED")]

lemma parseD_ofNat : ∀ k < 10, parseD (Char.ofNat (48 + k)) = some k := by decide

lemma parseD_digitChar (n : ℕ) : parseD (digitChar n) = some (n % 10) :=
  parseD_ofNat (n % 10) (Nat.mod_lt _ (by norm_num))

lemma digitChar_ne_Z (n : ℕ) : digitChar n ≠ 'Z' := by
  have h : ∀ k < 10, Char.ofNat (48 + k) ≠ 'Z' := by decide
  exact h (n % 10) (Nat.mod_lt _ (by norm_num))

lemma noZ_append {l1 l2 : List Char} (h1 : ∀ c ∈ l1, c ≠ 'Z')
    (h2 : ∀ c ∈ l2, c ≠ 'Z') : ∀ c ∈ l1 ++ l2, c ≠ 'Z' := by
  intro c hc
  rcases List.mem_append.1 hc with h | h
  exacts [h1 c h, h2 c h]

lemma noZ_cons {a : Char} {l : List Char} (h0 : a ≠ 'Z')
    (h : ∀ c ∈ l, c ≠ 'Z') : ∀ c ∈ a :: l, c ≠ 'Z' := by
  intro c hc
  rcases List.mem_cons.1 hc with rfl | hm
  exacts [h0, h c hm]

lemma pad2_noZ (n : ℕ) : ∀ c ∈ pad2 n, c ≠ 'Z' := by
  intro c hc
  simp only [pad2, List.mem_cons, List.not_mem_nil, or_false] at hc
  rcases hc with rfl | rfl <;> exact digitChar_ne_Z _

lemma pad3_noZ (n : ℕ) : ∀ c ∈ pad3 n, c ≠ 'Z' := by
  intro c hc
  simp only [pad3, List.mem_cons, List.not_mem_nil, or_false] at hc
  rcases hc with rfl | rfl | rfl <;> exact digitChar_ne_Z _

lemma pad4_noZ (n : ℕ) : ∀ c ∈ pad4 n, c ≠ 'Z' := by
  intro c hc
  simp only [pad4, List.mem_cons, List.not_mem_nil, or_false] at hc
  rcases hc with rfl | rfl | rfl | rfl <;> exact digitChar_ne_Z _

lemma isoBody_noZ (y m d h mi s : ℕ) (ms : Option ℕ) :
    ∀ c ∈ isoBodyChars y m d h mi s ms, c ≠ 'Z' := by
  unfold isoBodyChars
  refine noZ_append (pad4_noZ _) (noZ_cons (by decide) ?_)
  refine noZ_append (pad2_noZ _) (noZ_cons (by decide) ?_)
  refine noZ_append (pad2_noZ _) (noZ_cons (by decide) ?_)
  refine noZ_append (pad2_noZ _) (noZ_cons (by decide) ?_)
  refine noZ_append (pad2_noZ _) (noZ_cons (by decide) ?_)
  refine noZ_append (pad2_noZ _) ?_
  rcases ms with _ | k
  · intro c hc; simp at hc
  · exact noZ_cons (by decide) (pad3_noZ _)

lemma replaceZlist_append {cs : List Char} (ds : List Char)
    (h : ∀ c ∈ cs, c ≠ 'Z') : replaceZlist (cs ++ ds) = cs ++ replaceZlist ds := by
  induction cs with
  | nil => rfl
  | cons a as ih =>
      have ha : a ≠ 'Z' := h a (List.mem_cons_self a as)
      simp only [List.cons_append, replaceZlist, if_neg ha, List.singleton_append,
        List.cons.injEq, true_and]
      exact ih (fun c hc => h c (List.mem_cons_of_mem a hc))

lemma replaceZ_isoZ (y m d h mi s : ℕ) (ms : Option ℕ) :
    (replaceZ (isoZ y m d h mi s ms)).data =
      isoBodyChars y m d h mi s ms ++ ['+', '0', '0', ':', '0', '0'] := by
  show replaceZlist (isoBodyChars y m d h mi s ms ++ ['Z']) = _
  rw [replaceZlist_append _ (isoBody_noZ y m d h mi s ms)]
  rfl

lemma parse2_digits (a b : ℕ) :
    parse2 (digitChar a) (digitChar b) = some (a % 10 * 10 + b % 10) := by
  simp [parse2, parseD_digitChar]

lemma parse3_digits (a b c : ℕ) :
    parse3 (digitChar a) (digitChar b) (digitChar c) =
      some ((a % 10 * 10 + b % 10) * 10 + c % 10) := by
  simp [parse3, parseD_digitChar]

lemma parse4_digits (a b c d : ℕ) :
    parse4 (digitChar a) (digitChar b) (digitChar c) (digitChar d) =
      some (((a % 10 * 10 + b % 10) * 10 + c % 10) * 10 + d % 10) := by
  simp [parse4, parseD_digitChar]

lemma parseOffsetZero : parseOffset ['+', '0', '0', ':', '0', '0'] = some (some 0) := by
  decide

lemma fromIso_roundtrip_frac (y m d h mi s k : ℕ) (hv : validDate y m d)
    (hh : h ≤ 23) (hmi : mi ≤ 59) (hs : s ≤ 59) (hk : k ≤ 999) :
    fromisoformat (replaceZ (isoZ y m d h mi s (some k))) =
      some ⟨y, m, d, h, mi, s, k, some 0⟩ := by
  have hy : y ≤ 9999 := hv.2.1
  have hm : m ≤ 12 := hv.2.2.2.1
  have hd : d ≤ daysInMonth y m := hv.2.2.2.2.2
  have hd99 : d ≤ 99 := by
    have h31 : daysInMonth y m ≤ 31 := by
      unfold daysInMonth
      split
      · split <;> omega
      · split <;> omega
    omega
  unfold fromisoformat
  rw [replaceZ_isoZ]
  simp only [isoBodyChars, pad4, pad3, pad2, List.cons_append, List.nil_append]
  simp only [fromIsoList, parse4_digits, parse2_digits]
  rw [show (((y / 1000 % 10 * 10 + y / 100 % 10) * 10 + y / 10 % 10) * 10 + y % 10) = y
        from by omega,
      show (m / 10 % 10 * 10 + m % 10) = m from by omega,
      show (d / 10 % 10 * 10 + d % 10) = d from by omega]
  simp only [and_self, ite_true, if_pos hv]
  simp only [parseTimeList, parse2_digits]
  rw [show (h / 10 % 10 * 10 + h % 10) = h from by omega,
      show (mi / 10 % 10 * 10 + mi % 10) = mi from by omega,
      show (s / 10 % 10 * 10 + s % 10) = s from by omega]
  simp only [and_self, ite_true, if_pos (And.intro hh (And.intro hmi hs))]
  simp only [parseFrac, parse3_digits, parseOffsetZero, Option.map_some]
  rw [show ((k / 100 % 10 * 10 + k / 10 % 10) * 10 + k % 10) = k from by omega]
  rfl

lemma fromIso_roundtrip_nofrac (y m d h mi s : ℕ) (hv : validDate y m d)
    (hh : h ≤ 23) (hmi : mi ≤ 59) (hs : s ≤ 59) :
    fromisoformat (replaceZ (isoZ y m d h mi s none)) =
      some ⟨y, m, d, h, mi, s, 0, some 0⟩ := by
  have hy : y ≤ 9999 := hv.2.1
  have hm : m ≤ 12 := hv.2.2.2.1
  have hd : d ≤ daysInMonth y m := hv.2.2.2.2.2
  have hd99 : d ≤ 99 := by
    have h31 : daysInMonth y m ≤ 31 := by
      unfold daysInMonth
      split
      · split <;> omega
      · split <;> omega
    omega
  unfold fromisoformat
  rw [replaceZ_isoZ]
  simp only [isoBodyChars, pad4, pad3, pad2, List.cons_append, List.nil_append,
    List.append_nil]
  simp only [fromIsoList, parse4_digits, parse2_digits]
  rw [show (((y / 1000 % 10 * 10 + y / 100 % 10) * 10 + y / 10 % 10) * 10 + y % 10) = y
        from by omega,
      show (m / 10 % 10 * 10 + m % 10) = m from by omega,
      show (d / 10 % 10 * 10 + d % 10) = d from by omega]
  simp only [and_self, ite_true, if_pos hv]
  simp only [parseTimeList, parse2_digits]
  rw [show (h / 10 % 10 * 10 + h % 10) = h from by omega,
      show (mi / 10 % 10 * 10 + mi % 10) = mi from by omega,
      show (s / 10 % 10 * 10 + s % 10) = s from by omega]
  simp only [and_self, ite_true, if_pos (And.intro hh (And.intro hmi hs))]
  simp only [parseFrac, parseOffsetZero, Option.map_some]
  rfl

lemma truthy_isoZ (y m d h mi s : ℕ) (ms : Option ℕ) :
    truthy (Json.str (isoZ y m d h mi s ms)) = true := by
  show (if isoZ y m d h mi s ms = "" then false else true) = true
  rw [if_neg]
  intro hcontra
  have hdata : (isoZ y m d h mi s ms).data = ("" : String).data := by rw [hcontra]
  simp [isoZ] at hdata

lemma timestampOf_utc (tzl : DT → ℚ) (y m d h mi s ms : ℕ) :
    timestampOf tzl ⟨y, m, d, h, mi, s, ms, some 0⟩ = utcEpoch y m d h mi s ms := by
  simp [timestampOf, utcEpoch, utcEpochSecs]

lemma parseIso_isoZ_frac (tzl : DT → ℚ) (y m d h mi s k : ℕ) (hv : validDate y m d)
    (hh : h ≤ 23) (hmi : mi ≤ 59) (hs : s ≤ 59) (hk : k ≤ 999) :
    parseIsoDatetime tzl (Json.str (isoZ y m d h mi s (some k))) =
      some (utcEpoch y m d h mi s k) := by
  unfold parseIsoDatetime
  rw [truthy_isoZ]
  simp only [ite_true]
  rw [fromIso_roundtrip_frac y m d h mi s k hv hh hmi hs hk]
  show some (timestampOf tzl ⟨y, m, d, h, mi, s, k, some 0⟩) = _
  rw [timestampOf_utc]

lemma parseIso_isoZ_nofrac (tzl : DT → ℚ) (y m d h mi s : ℕ) (hv : validDate y m d)
    (hh : h ≤ 23) (hmi : mi ≤ 59) (hs : s ≤ 59) :
    parseIsoDatetime tzl (Json.str (isoZ y m d h mi s none)) =
      some (utcEpoch y m d h mi s 0) := by
  unfold parseIsoDatetime
  rw [truthy_isoZ]
  simp only [ite_true]
  rw [fromIso_roundtrip_nofrac y m d h mi s hv hh hmi hs]
  show some (timestampOf tzl ⟨y, m, d, h, mi, s, 0, some 0⟩) = _
  rw [timestampOf_utc]

lemma resolveUrl_link {u : String} (hu : u ≠ "") :
    resolveUrl (some (Json.str u)) = .ok u := by
  simp [resolveUrl, truthy, if_neg hu]

lemma getPaginated_ok_base {net : String → NetResult} {r : Json}
    (h : okResponse net baseMonitorsUrl r) : getPaginated net none = .ok r := by
  obtain ⟨s, hnet, hs⟩ := h
  simp only [getPaginated, resolveUrl, hnet, if_neg hs]

lemma getPaginated_ok_link {net : String → NetResult} {u : String} {r : Json}
    (hu : u ≠ "") (h : okResponse net u r) :
    getPaginated net (some (Json.str u)) = .ok r := by
  obtain ⟨s, hnet, hs⟩ := h
  simp only [getPaginated, resolveUrl_link hu, hnet, if_neg hs]

lemma getPaginated_fails_base {net : String → NetResult}
    (h : netFails net baseMonitorsUrl) :
    ∃ msg, getPaginated net none = .error (.apiError msg) := by
  rcases h with ⟨msg, hnet⟩ | ⟨s, b, hnet, hs⟩ | ⟨s, hnet⟩
  · exact ⟨"API request failed: " ++ msg, by simp only [getPaginated, resolveUrl, hnet]⟩
  · refine ⟨"API request failed: HTTP error", ?_⟩
    simp only [getPaginated, resolveUrl, hnet, if_pos hs]
  · by_cases hs : 400 ≤ s ∧ s < 600
    · exact ⟨"API request failed: HTTP error",
        by simp only [getPaginated, resolveUrl, hnet, if_pos hs]⟩
    · exact ⟨"API request failed: undecodable body",
        by simp only [getPaginated, resolveUrl, hnet, if_neg hs]⟩

lemma getPaginated_fails_link {net : String → NetResult} {u : String}
    (hu : u ≠ "") (h : netFails net u) :
    ∃ msg, getPaginated net (some (Json.str u)) = .error (.apiError msg) := by
  rcases h with ⟨msg, hnet⟩ | ⟨s, b, hnet, hs⟩ | ⟨s, hnet⟩
  · exact ⟨"API request failed: " ++ msg,
        by simp only [getPaginated, resolveUrl_link hu, hnet]⟩
  · refine ⟨"API request failed: HTTP error", ?_⟩
    simp only [getPaginated, resolveUrl_link hu, hnet, if_pos hs]
  · by_cases hs : 400 ≤ s ∧ s < 600
    · exact ⟨"API request failed: HTTP error",
        by simp only [getPaginated, resolveUrl_link hu, hnet, if_pos hs]⟩
    · exact ⟨"API request failed: undecodable body",
        by simp only [getPaginated, resolveUrl_link hu, hnet, if_neg hs]⟩

lemma monitorsLoop_chain {net : String → NetResult}
    (chain : List (String × Json × List Json)) :
    ∀ r rl acc calls fuel, chainTo net r chain rl → chain.length ≤ fuel →
      monitorsLoop net fuel r acc calls =
        monitorsLoop net (fuel - chain.length) rl
          (acc ++ (chain.map (fun e => e.2.2)).flatten) (calls + chain.length) := by
  induction chain with
  | nil =>
      intro r rl acc calls fuel hc _
      cases hc
      simp
  | cons head rest ih =>
      obtain ⟨u, rNext, items⟩ := head
      intro r rl acc calls fuel hc hf
      obtain ⟨hw, hu, hok, ht, hpd, hrest⟩ := hc
      obtain ⟨d, hgd, hit⟩ := hpd
      cases fuel with
      | zero => simp at hf
      | succ f =>
          have hstep : monitorsLoop net (f + 1) r acc calls =
              monitorsLoop net f rNext (acc ++ items) (calls + 1) := by
            simp only [monitorsLoop, hw, getPaginated_ok_link hu hok, ht, ite_true,
              hgd, hit]
          rw [hstep,
            ih rNext rl (acc ++ items) (calls + 1) f hrest (by simpa using hf)]
          have e1 : f + 1 - ((u, rNext, items) :: rest).length = f - rest.length := by
            simp only [List.length_cons]
            omega
          have e2 : calls + 1 + rest.length = calls + ((u, rNext, items) :: rest).length := by
            simp only [List.length_cons]
            omega
          rw [e1, e2, List.map_cons, List.flatten_cons, List.append_assoc]

lemma monitorsLoop_stop {net : String → NetResult} {r : Json} {fuel : Nat}
    (acc : List Json) (calls : Nat) (h : whileCond r = .ok none) (hf : 1 ≤ fuel) :
    monitorsLoop net fuel r acc calls = .ok (acc, calls) := by
  cases fuel with
  | zero => omega
  | succ f => simp only [monitorsLoop, h]

lemma monitorsLoop_fail {net : String → NetResult} {r : Json} {fuel : Nat} {u : String}
    (acc : List Json) (calls : Nat) (hw : whileCond r = .ok (some (Json.str u)))
    (hu : u ≠ "") (hfail : netFails net u) (hf : 1 ≤ fuel) :
    ∃ msg, monitorsLoop net fuel r acc calls = .error (.apiError msg) := by
  cases fuel with
  | zero => omega
  | succ f =>
      obtain ⟨msg, hget⟩ := getPaginated_fails_link hu hfail
      exact ⟨msg, by simp only [monitorsLoop, hw, hget]⟩

lemma monitorsLoop_falsy {net : String → NetResult} {r rNext : Json} {fuel : Nat}
    {u : String} (acc : List Json) (calls : Nat)
    (hw : whileCond r = .ok (some (Json.str u))) (hu : u ≠ "")
    (hok : okResponse net u rNext) (hfalsy : truthy rNext = false) (hf : 1 ≤ fuel) :
    monitorsLoop net fuel r acc calls = .ok (acc, calls + 1) := by
  cases fuel with
  | zero => omega
  | succ f =>
      simp only [monitorsLoop, hw, getPaginated_ok_link hu hok, hfalsy]
      simp

lemma lookupStr_any_true {fields : List (String × Json)} {k : String} {v : Json}
    (h : lookupStr fields k = some v) : fields.any (fun kv => kv.1 == k) = true := by
  induction fields with
  | nil => simp [lookupStr] at h
  | cons kv rest ih =>
      obtain ⟨k1, v1⟩ := kv
      by_cases hk : k1 = k
      · simp [List.any_cons, hk]
      · simp only [lookupStr, if_neg hk] at h
        simp [List.any_cons, ih h]

lemma lookupStr_any_false {fields : List (String × Json)} {k : String}
    (h : lookupStr fields k = none) : fields.any (fun kv => kv.1 == k) = false := by
  induction fields with
  | nil => simp
  | cons kv rest ih =>
      obtain ⟨k1, v1⟩ := kv
      by_cases hk : k1 = k
      · simp only [lookupStr, if_pos hk] at h
        cases h
      · simp only [lookupStr, if_neg hk] at h
        simp [List.any_cons, hk, ih h]

lemma whileCond_obj_link {fields : List (String × Json)} {u : String}
    (hlk : lookupStr fields "nextLink" = some (Json.str u)) (hu : u ≠ "") :
    whileCond (Json.obj fields) = .ok (some (Json.str u)) := by
  simp only [whileCond, pyIn, lookupStr_any_true hlk, getAttrD, hlk, Option.getD_some,
    truthy, if_neg hu, ite_true, getItem]

lemma whileCond_obj_absent {fields : List (String × Json)}
    (h : lookupStr fields "nextLink" = none) :
    whileCond (Json.obj fields) = .ok none := by
  simp only [whileCond, pyIn, lookupStr_any_false h]

lemma whileCond_obj_falsy {fields : List (String × Json)} {v : Json}
    (h : lookupStr fields "nextLink" = some v) (hv : truthy v = false) :
    whileCond (Json.obj fields) = .ok none := by
  simp only [whileCond, pyIn, lookupStr_any_true h, getAttrD, h, Option.getD_some, hv]
  simp

lemma getMonitors_chain {net : String → NetResult} {r0 rl : Json}
    {items0 : List Json} {chain : List (String × Json × List Json)} {fuel : Nat}
    (h0 : okResponse net baseMonitorsUrl r0) (ht : truthy r0 = true)
    (hp : pageData r0 items0) (hc : chainTo net r0 chain rl)
    (hw : whileCond rl = .ok none) (hf : chain.length + 1 ≤ fuel) :
    getMonitors net fuel =
      .ok (items0 ++ (chain.map (fun e => e.2.2)).flatten, 1 + chain.length) := by
  obtain ⟨d, hgd, hit⟩ := hp
  simp only [getMonitors, getPaginated_ok_base h0, ht, ite_true, hgd, hit]
  rw [monitorsLoop_chain chain r0 rl items0 1 fuel hc (by omega)]
  rw [monitorsLoop_stop _ _ hw (by omega)]

lemma getMonitors_first_falsy {net : String → NetResult} {j : Json} {s : Nat}
    (fuel : Nat) (hnet : net baseMonitorsUrl = .response s (some j))
    (hs : ¬(400 ≤ s ∧ s < 600)) (hfalsy : truthy j = false) :
    getMonitors net fuel = .ok ([], 1) := by
  simp only [getMonitors, getPaginated_ok_base ⟨s, hnet, hs⟩, hfalsy]
  simp

lemma getMonitors_fail_base {net : String → NetResult} (fuel : Nat)
    (h : netFails net baseMonitorsUrl) :
    ∃ msg, getMonitors net fuel = .error (.apiError msg) := by
  obtain ⟨msg, hget⟩ := getPaginated_fails_base h
  exact ⟨msg, by simp only [getMonitors, hget]⟩

lemma getMonitors_fail_chain {net : String → NetResult} {r0 rl : Json}
    {items0 : List Json} {chain : List (String × Json × List Json)} {u : String}
    {fuel : Nat} (h0 : okResponse net baseMonitorsUrl r0) (ht : truthy r0 = true)
    (hp : pageData r0 items0) (hc : chainTo net r0 chain rl)
    (hw : whileCond rl = .ok (some (Json.str u))) (hu : u ≠ "")
    (hfail : netFails net u) (hf : chain.length + 1 ≤ fuel) :
    ∃ msg, getMonitors net fuel = .error (.apiError msg) := by
  obtain ⟨d, hgd, hit⟩ := hp
  simp only [getMonitors, getPaginated_ok_base h0, ht, ite_true, hgd, hit]
  rw [monitorsLoop_chain chain r0 rl items0 1 fuel hc (by omega)]
  exact monitorsLoop_fail _ _ hw hu hfail (by omega)

lemma getMonitors_falsy_chain {net : String → NetResult} {r0 rl rEnd : Json}
    {items0 : List Json} {chain : List (String × Json × List Json)} {u : String}
    {fuel : Nat} (h0 : okResponse net baseMonitorsUrl r0) (ht : truthy r0 = true)
    (hp : pageData r0 items0) (hc : chainTo net r0 chain rl)
    (hw : whileCond rl = .ok (some (Json.str u))) (hu : u ≠ "")
    (hok : okResponse net u rEnd) (hfalsy : truthy rEnd = false)
    (hf : chain.length + 1 ≤ fuel) :
    getMonitors net fuel =
      .ok (items0 ++ (chain.map (fun e => e.2.2)).flatten, 1 + chain.length + 1) := by
  obtain ⟨d, hgd, hit⟩ := hp
  simp only [getMonitors, getPaginated_ok_base h0, ht, ite_true, hgd, hit]
  rw [monitorsLoop_chain chain r0 rl items0 1 fuel hc (by omega)]
  exact monitorsLoop_falsy _ _ hw hu hok hfalsy (by omega)

lemma collect_apiError {net : String → NetResult} {fuel : Nat} {msg : String}
    (tzl : DT → ℚ) (dur : ℚ) (st : MetricsDict)
    (h : getMonitors net fuel = .error (.apiError msg)) :
    collect tzl net fuel dur st = (st, .error (.apiError msg)) := by
  simp only [collect, h]

lemma processMonitor_obj (tzl : DT → ℚ) (fields : List (String × Json))
    (g1 g2 g3 g4 : PrometheusGauge) :
    processMonitor tzl (Json.obj fields)
        [("up", g1), ("status", g2), ("ssl_expire", g3), ("scrape_duration_seconds", g4)] =
      ([("up", gaugeCall g1 (monValue fields) (monLabels fields)),
        ("status", gaugeCall g2 (monValue fields) (monLabels fields)),
        ("ssl_expire", sslResult tzl fields g3),
        ("scrape_duration_seconds", g4)], none) := by
  by_cases hs : truthy ((lookupStr fields "sslExpiryDateTime").getD Json.null) = true
  · rcases hp : parseIsoDatetime tzl ((lookupStr fields "sslExpiryDateTime").getD Json.null)
      with _ | ts
    · simp [processMonitor, processBody, metricsLookup, metricsUpdate, monValue,
        sslResult, List.find?, hs, hp]
    · simp [processMonitor, processBody, metricsLookup, metricsUpdate, monValue,
        sslResult, List.find?, hs, hp]
  · simp only [Bool.not_eq_true] at hs
    simp [processMonitor, processBody, metricsLookup, metricsUpdate, monValue,
      sslResult, List.find?, hs]

lemma pyEqStr_true_iff (j : Json) (s : String) : pyEqStr j s = true ↔ j = Json.str s := by
  cases j <;> simp [pyEqStr]

lemma processMonitor_obj_no_raise (tzl : DT → ℚ) (fields : List (String × Json))
    (m : MetricsDict) : (processMonitor tzl (Json.obj fields) m).2 = none := by
  rcases hb : processBody tzl (Json.obj fields) m with ⟨mOut, eOpt⟩
  cases eOpt with
  | none => simp [processMonitor, hb]
  | some e => simp [processMonitor, hb]

/-- C1: the claim says repeated collect() calls on one collector with an
unchanged upstream give structurally identical results because each
scrape works on fresh clones of the template families.  The code never
clones: `collect` appends into the cached `self._metrics` families, so
the second call returns families holding the first call's samples as
well — sample counts [1, 1, 0, 1] after the first call become
[2, 2, 0, 2] after the second. -/
theorem C1_collect_twice_accumulates_samples :
    ((collect tzZero netSingleUp 5 0 initMetrics).2.toOption.map
        (fun gs => gs.map (fun g => g.samples.length)) = some [1, 1, 0, 1]) ∧
      ((collect tzZero netSingleUp 5 0
            (collect tzZero netSingleUp 5 0 initMetrics).1).2.toOption.map
          (fun gs => gs.map (fun g => g.samples.length)) = some [2, 2, 0, 2]) :=
  ⟨rfl, rfl⟩

/-- C9: the claim says after every successful collect() the
`scrape_duration_seconds` family holds exactly one sample.  Because the
code reuses the cached families instead of cloning, a second successful
collect() leaves two samples in that family ([0, 0, 0, 2] across the
four families with a zero-monitor upstream). -/
theorem C9_scrape_duration_two_samples_after_second_collect :
    ((collect tzZero netEmptyData 5 0 initMetrics).2.toOption.map
        (fun gs => gs.map (fun g => g.samples.length)) = some [0, 0, 0, 1]) ∧
      ((collect tzZero netEmptyData 5 0
            (collect tzZero netEmptyData 5 0 initMetrics).1).2.toOption.map
          (fun gs => gs.map (fun g => g.samples.length)) = some [0, 0, 0, 2]) :=
  ⟨rfl, rfl⟩

/-- C4 counterexample: the claim says the mapper never raises for records
of any shape including non-record values.  For a non-dict record the
`except` handler itself evaluates `monitor.get("friendlyName", "unknown")`
and raises AttributeError, so `_process_monitor` raises. -/
theorem C4_non_record_raises :
    processMonitor tzZero (Json.str "oops") initMetrics =
      (initMetrics, some PyError.attributeError) := rfl

/-- C4 (amended): for every dict-shaped record and every metrics dict the
mapper returns normally (any fault inside the body is caught and the
logging handler succeeds), and the record loop then continues with the
next record. -/
theorem C4_dict_record_never_raises (tzl : DT → ℚ) (fields : List (String × Json))
    (m : MetricsDict) (rest : List Json) :
    (processMonitor tzl (Json.obj fields) m).2 = none ∧
      runMonitors tzl (Json.obj fields :: rest) m =
        runMonitors tzl rest (processMonitor tzl (Json.obj fields) m).1 := by
  refine ⟨processMonitor_obj_no_raise tzl fields m, ?_⟩
  rcases hp : processMonitor tzl (Json.obj fields) m with ⟨mOut, eOpt⟩
  have h2 : eOpt = none := by
    have := processMonitor_obj_no_raise tzl fields m
    rw [hp] at this
    exact this
  subst h2
  simp [runMonitors, hp]

/-- C2 counterexample: the claim says any non-2xx HTTP status raises a
CollectionError.  `raise_for_status` only raises for 4xx/5xx: a 300
response with a decodable (falsy) body raises nothing — the fetch
returns an empty monitor list and collect() succeeds. -/
theorem C2_status_300_not_raised :
    netStatus300 baseMonitorsUrl = .response 300 (some (Json.obj [])) ∧
      getMonitors netStatus300 5 = .ok ([], 1) ∧
      ((collect tzZero netStatus300 5 0 initMetrics).2.toOption.map
        (fun gs => gs.map (fun g => g.samples.length)) = some [0, 0, 0, 1]) :=
  ⟨rfl, rfl, rfl⟩

/-- C8: collector construction raises for every falsy (empty or absent)
API key and for every non-positive timeout, and succeeds for a non-empty
string key with a positive timeout; validation happens at construction
time. -/
theorem C8_constructor_validation :
    (∀ t : ℤ, initCollector (Json.str "") t = .error (.valueError "API key is required")) ∧
      (∀ t : ℤ, initCollector Json.null t = .error (.valueError "API key is required")) ∧
      (∀ (key : Json) (t : ℤ), t ≤ 0 → ∃ e, initCollector key t = .error e) ∧
      (∀ (s : String) (t : ℤ), s ≠ "" → 0 < t →
        initCollector (Json.str s) t = .ok ⟨s, t, initMetrics⟩) := by
  refine ⟨fun t => rfl, fun t => rfl, ?_, ?_⟩
  · intro key t ht
    by_cases hk : truthy key = true
    · cases key with
      | str s =>
          exact ⟨.valueError "Timeout must be positive",
            by simp [initCollector, hk, if_pos ht]⟩
      | null => exact absurd hk (by decide)
      | bool b => exact ⟨.typeError, by simp [initCollector, hk]⟩
      | num q => exact ⟨.typeError, by simp [initCollector, hk]⟩
      | arr l => exact ⟨.typeError, by simp [initCollector, hk]⟩
      | obj l => exact ⟨.typeError, by simp [initCollector, hk]⟩
    · refine ⟨.valueError "API key is required", ?_⟩
      simp only [Bool.not_eq_true] at hk
      simp [initCollector, hk]
  · intro s t hs ht
    have htr : truthy (Json.str s) = true := by simp [truthy, hs]
    simp [initCollector, htr, not_le.mpr ht]

/-- C8 witness: a concrete non-positive timeout is rejected and a
concrete valid configuration is accepted. -/
theorem C8_constructor_validation_witness :
    (∃ e, initCollector (Json.num 3) 0 = .error e) ∧
      initCollector (Json.str "key") 30 = .ok ⟨"key", 30, initMetrics⟩ :=
  ⟨C8_constructor_validation.2.2.1 (Json.num 3) 0 (by decide),
    C8_constructor_validation.2.2.2 "key" 30 (by decide) (by decide)⟩

/-- C3: for every dict record the mapper appends exactly one sample to
the up family and one to the status family, both with value 1 exactly
when status is the string "UP" and 0 for any other status, and the
`monitor_paused` label is the string "true" exactly when status is
"PAUSED" and "false" otherwise. -/
theorem C3_mapper_up_status_and_paused_label (tzl : DT → ℚ)
    (fields : List (String × Json)) (g1 g2 g3 g4 : PrometheusGauge) :
    processMonitor tzl (Json.obj fields)
        [("up", g1), ("status", g2), ("ssl_expire", g3), ("scrape_duration_seconds", g4)] =
      ([("up", gaugeCall g1 (monValue fields) (monLabels fields)),
        ("status", gaugeCall g2 (monValue fields) (monLabels fields)),
        ("ssl_expire", sslResult tzl fields g3),
        ("scrape_duration_seconds", g4)], none) ∧
      (gaugeCall g1 (monValue fields) (monLabels fields)).samples =
        g1.samples ++ [⟨g1.fullName, monLabels fields, monValue fields⟩] ∧
      (gaugeCall g2 (monValue fields) (monLabels fields)).samples =
        g2.samples ++ [⟨g2.fullName, monLabels fields, monValue fields⟩] ∧
      (monStatus fields = Json.str "UP" → monValue fields = 1) ∧
      (monStatus fields ≠ Json.str "UP" → monValue fields = 0) ∧
      (monStatus fields = Json.str "PAUSED" →
        lookupStr (monLabels fields) "monitor_paused" = some (Json.str "true")) ∧
      (monStatus fields ≠ Json.str "PAUSED" →
        lookupStr (monLabels fields) "monitor_paused" = some (Json.str "false")) := by
  refine ⟨processMonitor_obj tzl fields g1 g2 g3 g4, rfl, rfl, ?_, ?_, ?_, ?_⟩
  · intro h
    simp [monValue, h, pyEqStr]
  · intro h
    unfold monValue
    rw [if_neg]
    intro hc
    exact h ((pyEqStr_true_iff _ _).1 hc)
  · intro h
    simp [monLabels, lookupStr, h, pyEqStr]
  · intro h
    have hb : pyEqStr (monStatus fields) "PAUSED" = false := by
      cases hpe : pyEqStr (monStatus fields) "PAUSED" with
      | true => exact absurd ((pyEqStr_true_iff _ _).1 hpe) h
      | false => rfl
    simp [monLabels, lookupStr, hb]

/-- C3 witness: a PAUSED record maps to value 0 together with the label
`monitor_paused = "true"`. -/
theorem C3_mapper_up_status_and_paused_label_witness :
    monValue monPausedFields = 0 ∧
      lookupStr (monLabels monPausedFields) "monitor_paused" = some (Json.str "true") := by
  have h := C3_mapper_up_status_and_paused_label tzZero monPausedFields
    (mkGauge "up" "d") (mkGauge "status" "d") (mkGauge "ssl_expire" "d")
    (mkGauge "scrape_duration_seconds" "d")
  have hne : monStatus monPausedFields ≠ Json.str "UP" := by
    intro hc
    simp [monStatus, monPausedFields, lookupStr] at hc
  have hp : monStatus monPausedFields = Json.str "PAUSED" := rfl
  exact ⟨h.2.2.2.2.1 hne, h.2.2.2.2.2.1 hp⟩

/-- C7: for every dict record the sample appended to the status family
carries exactly the value (and labels) of the sample appended to the up
family. -/
theorem C7_up_status_parity (tzl : DT → ℚ) (fields : List (String × Json))
    (g1 g2 g3 g4 : PrometheusGauge) :
    ∃ smp1 smp2 : Sample,
      metricsLookup (processMonitor tzl (Json.obj fields)
          [("up", g1), ("status", g2), ("ssl_expire", g3),
            ("scrape_duration_seconds", g4)]).1 "up"
        = .ok { g1 with samples := g1.samples ++ [smp1] } ∧
      metricsLookup (processMonitor tzl (Json.obj fields)
          [("up", g1), ("status", g2), ("ssl_expire", g3),
            ("scrape_duration_seconds", g4)]).1 "status"
        = .ok { g2 with samples := g2.samples ++ [smp2] } ∧
      smp1.value = smp2.value ∧ smp1.labels = smp2.labels := by
  refine ⟨⟨g1.fullName, monLabels fields, monValue fields⟩,
    ⟨g2.fullName, monLabels fields, monValue fields⟩, ?_, ?_, rfl, rfl⟩
  · rw [processMonitor_obj]
    rfl
  · rw [processMonitor_obj]
    rfl

/-- C5: the datetime normalizer is total over JSON values; every
`Z`-suffixed rendering of a valid instant (with or without millisecond
fraction) parses to that instant's UTC epoch seconds; empty, null and
syntactically invalid inputs return no value (the method's exception
handler catches the parse failures, so nothing is raised); two concrete
anchors pin the epoch convention. -/
theorem C5_datetime_normalizer :
    (∀ (tzl : DT → ℚ) (y m d h mi s k : ℕ), validDate y m d → h ≤ 23 → mi ≤ 59 →
        s ≤ 59 → k ≤ 999 →
        parseIsoDatetime tzl (Json.str (isoZ y m d h mi s (some k))) =
          some (utcEpoch y m d h mi s k)) ∧
      (∀ (tzl : DT → ℚ) (y m d h mi s : ℕ), validDate y m d → h ≤ 23 → mi ≤ 59 →
        s ≤ 59 →
        parseIsoDatetime tzl (Json.str (isoZ y m d h mi s none)) =
          some (utcEpoch y m d h mi s 0)) ∧
      (∀ tzl, parseIsoDatetime tzl (Json.str "") = none) ∧
      (∀ tzl, parseIsoDatetime tzl Json.null = none) ∧
      (∀ tzl, parseIsoDatetime tzl (Json.str "invalid-datetime") = none) ∧
      (∀ tzl, parseIsoDatetime tzl (Json.str "2025-13-01T25:00:00.000Z") = none) ∧
      (∀ tzl, parseIsoDatetime tzl (Json.str "2025/12/31 23:59:59") = none) ∧
      (∀ tzl, parseIsoDatetime tzl (Json.str "2025-12-31T23:59:59.000Z") =
        some 1767225599) ∧
      (∀ tzl, parseIsoDatetime tzl (Json.str "1970-01-01T00:00:00.000Z") = some 0) := by
  refine ⟨parseIso_isoZ_frac, parseIso_isoZ_nofrac, fun _ => rfl, fun _ => rfl,
    fun _ => rfl, fun _ => rfl, fun _ => rfl, ?_, ?_⟩
  · intro tzl
    have h := parseIso_isoZ_frac tzl 2025 12 31 23 59 59 0 (by decide) (by decide)
      (by decide) (by decide) (by decide)
    rw [show isoZ 2025 12 31 23 59 59 (some 0) = "2025-12-31T23:59:59.000Z" from by decide]
      at h
    rw [h]
    have hd : daysFromCivil 2025 12 31 = 20453 := by decide
    unfold utcEpoch
    rw [hd]
    norm_num
  · intro tzl
    have h := parseIso_isoZ_frac tzl 1970 1 1 0 0 0 0 (by decide) (by decide)
      (by decide) (by decide) (by decide)
    rw [show isoZ 1970 1 1 0 0 0 (some 0) = "1970-01-01T00:00:00.000Z" from by decide]
      at h
    rw [h]
    have hd : daysFromCivil 1970 1 1 = 0 := by decide
    unfold utcEpoch
    rw [hd]
    norm_num

/-- C5 witness: December 31st 2025, 23:59:59 UTC is in range and parses
to its epoch value. -/
theorem C5_datetime_normalizer_witness :
    validDate 2025 12 31 ∧
      parseIsoDatetime tzZero (Json.str (isoZ 2025 12 31 23 59 59 (some 0))) =
        some (utcEpoch 2025 12 31 23 59 59 0) :=
  ⟨by decide, C5_datetime_normalizer.1 tzZero 2025 12 31 23 59 59 0 (by decide)
    (by decide) (by decide) (by decide) (by decide)⟩

/-- C6: over any sequence of linked pages (first page at the base URL,
each later page reached through the previous page's non-empty string
`nextLink`, the loop stopping when `nextLink` is absent or falsy),
`_get_monitors` returns the concatenation of all pages' records in page
order using exactly one HTTP request per page; a page with an absent
`data` array contributes zero records; the last three conjuncts relate
the loop condition to the raw page shape. -/
theorem C6_paginated_fetch_aggregates :
    (∀ (net : String → NetResult) (r0 rl : Json) (items0 : List Json)
        (chain : List (String × Json × List Json)) (fuel : Nat),
        okResponse net baseMonitorsUrl r0 → truthy r0 = true → pageData r0 items0 →
        chainTo net r0 chain rl → whileCond rl = .ok none → chain.length + 1 ≤ fuel →
        getMonitors net fuel =
          .ok (items0 ++ (chain.map (fun e => e.2.2)).flatten, 1 + chain.length)) ∧
      (∀ fields : List (String × Json), lookupStr fields "data" = none →
        pageData (Json.obj fields) []) ∧
      (∀ (fields : List (String × Json)) (u : String),
        lookupStr fields "nextLink" = some (Json.str u) → u ≠ "" →
        whileCond (Json.obj fields) = .ok (some (Json.str u))) ∧
      (∀ fields : List (String × Json), lookupStr fields "nextLink" = none →
        whileCond (Json.obj fields) = .ok none) ∧
      (∀ (fields : List (String × Json)) (v : Json),
        lookupStr fields "nextLink" = some v → truthy v = false →
        whileCond (Json.obj fields) = .ok none) := by
  refine ⟨?_, ?_, ?_, ?_, ?_⟩
  · intro net r0 rl items0 chain fuel h0 ht hp hc hw hf
    exact getMonitors_chain h0 ht hp hc hw hf
  · intro fields h
    exact ⟨Json.arr [], by simp [getAttrD, h], rfl⟩
  · intro fields u h1 h2
    exact whileCond_obj_link h1 h2
  · intro fields h
    exact whileCond_obj_absent h
  · intro fields v h1 h2
    exact whileCond_obj_falsy h1 h2

/-- C6 witness: two linked pages with two plus one records aggregate to
three records in page order over exactly two requests. -/
theorem C6_paginated_fetch_aggregates_witness :
    getMonitors netTwoPages 3 = .ok ([recOne, recTwo, recThree], 2) := by
  have h := C6_paginated_fetch_aggregates.1 netTwoPages pageOneJson pageTwoJson
    [recOne, recTwo] [(pageTwoUrl, pageTwoJson, [recThree])] 3
    ⟨200, rfl, by decide⟩ rfl ⟨Json.arr [recOne, recTwo], rfl, rfl⟩
    ⟨rfl, by decide, ⟨200, rfl, by decide⟩, rfl, ⟨Json.arr [recThree], rfl, rfl⟩, rfl⟩
    rfl (by decide)
  simpa using h

/-- C2 counterexample aside, the amended failure behavior: a transport
failure, a 4xx/5xx status, or an undecodable body at the first page or at
any page reached through the link chain raises UptimeRobotAPIError from
the fetch, and collect() re-raises it with the cached metrics dict left
untouched (no sample appended). -/
theorem C2_failure_raises_collection_error :
    (∀ (tzl : DT → ℚ) (net : String → NetResult) (fuel : Nat) (dur : ℚ)
        (st : MetricsDict), netFails net baseMonitorsUrl →
        ∃ msg, getMonitors net fuel = .error (.apiError msg) ∧
          collect tzl net fuel dur st = (st, .error (.apiError msg))) ∧
      (∀ (tzl : DT → ℚ) (net : String → NetResult) (fuel : Nat) (dur : ℚ)
        (st : MetricsDict) (r0 rl : Json) (items0 : List Json)
        (chain : List (String × Json × List Json)) (u : String),
        okResponse net baseMonitorsUrl r0 → truthy r0 = true → pageData r0 items0 →
        chainTo net r0 chain rl → whileCond rl = .ok (some (Json.str u)) → u ≠ "" →
        netFails net u → chain.length + 1 ≤ fuel →
        ∃ msg, getMonitors net fuel = .error (.apiError msg) ∧
          collect tzl net fuel dur st = (st, .error (.apiError msg))) := by
  constructor
  · intro tzl net fuel dur st h
    obtain ⟨msg, hg⟩ := getMonitors_fail_base fuel h
    exact ⟨msg, hg, collect_apiError tzl dur st hg⟩
  · intro tzl net fuel dur st r0 rl items0 chain u h0 ht hp hc hw hu hfail hf
    obtain ⟨msg, hg⟩ := getMonitors_fail_chain h0 ht hp hc hw hu hfail hf
    exact ⟨msg, hg, collect_apiError tzl dur st hg⟩

/-- C2 witness: a first page followed by a 500/undecodable second page
makes the whole fetch raise and collect() propagate with untouched
metrics. -/
theorem C2_failure_raises_collection_error_witness :
    ∃ msg, getMonitors netFailPageTwo 2 = .error (.apiError msg) ∧
      collect tzZero netFailPageTwo 2 0 initMetrics =
        (initMetrics, .error (.apiError msg)) :=
  C2_failure_raises_collection_error.2 tzZero netFailPageTwo 2 0 initMetrics
    pageOneJson pageOneJson [recOne, recTwo] [] pageTwoUrl
    ⟨200, rfl, by decide⟩ rfl ⟨Json.arr [recOne, recTwo], rfl, rfl⟩ rfl rfl
    (by decide) (Or.inr (Or.inl ⟨500, none, rfl, by decide, by decide⟩)) (by decide)

/-- C10: a page whose body decodes to a falsy JSON value terminates the
pagination without raising: a falsy first page yields an empty record
list after one request, and a falsy page reached through the link chain
returns the records aggregated so far (one extra request having been
spent fetching the falsy page). -/
theorem C10_falsy_page_terminates :
    (∀ (net : String → NetResult) (fuel : Nat) (s : Nat) (j : Json),
        net baseMonitorsUrl = .response s (some j) → ¬(400 ≤ s ∧ s < 600) →
        truthy j = false → getMonitors net fuel = .ok ([], 1)) ∧
      (∀ (net : String → NetResult) (r0 rl rEnd : Json) (items0 : List Json)
        (chain : List (String × Json × List Json)) (u : String) (fuel : Nat),
        okResponse net baseMonitorsUrl r0 → truthy r0 = true → pageData r0 items0 →
        chainTo net r0 chain rl → whileCond rl = .ok (some (Json.str u)) → u ≠ "" →
        okResponse net u rEnd → truthy rEnd = false → chain.length + 1 ≤ fuel →
        getMonitors net fuel =
          .ok (items0 ++ (chain.map (fun e => e.2.2)).flatten,
            1 + chain.length + 1)) := by
  constructor
  · intro net fuel s j h1 h2 h3
    exact getMonitors_first_falsy fuel h1 h2 h3
  · intro net r0 rl rEnd items0 chain u fuel h0 ht hp hc hw hu hok hfalsy hf
    exact getMonitors_falsy_chain h0 ht hp hc hw hu hok hfalsy hf

/-- C10 witness: a null second page stops pagination and keeps the first
page's two records. -/
theorem C10_falsy_page_terminates_witness :
    getMonitors netFalsyPageTwo 3 = .ok ([recOne, recTwo], 2) := by
  have h := C10_falsy_page_terminates.2 netFalsyPageTwo pageOneJson pageOneJson
    Json.null [recOne, recTwo] [] pageTwoUrl 3
    ⟨200, rfl, by decide⟩ rfl ⟨Json.arr [recOne, recTwo], rfl, rfl⟩ rfl rfl
    (by decide) ⟨200, rfl, by decide⟩ rfl (by decide)
  simpa using h
